import Mathlib

/-
Verification development for the shadow-drive client library.

The repository contains two client operations, `claim_stake`
(src/src/client/claim_stake.rs) and `reduce_storage`
(src/src/client/reduce_storage.rs).  Each derives deterministic
addresses, fetches the storage account from the remote node, builds a
single instruction, signs and submits one transaction, and maps the RPC
result into a response value.

The embedding below translates the two Rust functions into Lean.
Remote-node interaction is modelled by an `RpcEnv` oracle held by the
client handle; each operation returns, besides its result, the ordered
list of remote calls it performed (the trace) and the client handle it
leaves behind, so that ordering, counting, error-propagation and
frame claims become statable.
-/

namespace ShadowDrive

/-- Modelled from the spec: public keys.  The repository's
`derived_addresses` module and the SDK helper
`get_associated_token_address` are not under src/; the spec describes
them as "pure functions of fixed input keys and constants (no
randomness, no mutable state)".  We model keys symbolically: a raw key,
or a key deterministically derived from other keys by one of the
derivation helpers. -/
inductive Pubkey where
  | raw : Nat → Pubkey
  | unstakeAccountOf : Pubkey → Pubkey
  | unstakeInfoOf : Pubkey → Pubkey
  | stakeAccountOf : Pubkey → Pubkey
  | ataOf : Pubkey → Pubkey → Pubkey
deriving DecidableEq

/-- Modelled from the spec: `derived_addresses::unstake_account`,
a pure function of the storage account key (returns the address and a
bump seed, of which the code uses only the address). -/
def unstake_account (storage_account_key : Pubkey) : Pubkey × Nat :=
  (Pubkey.unstakeAccountOf storage_account_key, 0)

/-- Modelled from the spec: `derived_addresses::unstake_info`,
a pure function of the storage account key. -/
def unstake_info (storage_account_key : Pubkey) : Pubkey × Nat :=
  (Pubkey.unstakeInfoOf storage_account_key, 0)

/-- Modelled from the spec: `derived_addresses::stake_account`,
a pure function of the storage account key. -/
def stake_account (storage_account_key : Pubkey) : Pubkey × Nat :=
  (Pubkey.stakeAccountOf storage_account_key, 0)

/-- Modelled from the spec: the SDK helper
`spl_associated_token_account::get_associated_token_address`, a pure
function of the wallet key and the token mint. -/
def get_associated_token_address (wallet token_mint : Pubkey) : Pubkey :=
  Pubkey.ataOf wallet token_mint

/-- Modelled from the spec: the fixed constant `PROGRAM_ADDRESS`. -/
def PROGRAM_ADDRESS : Pubkey := Pubkey.raw 0

/-- Modelled from the spec: the fixed constant `STORAGE_CONFIG_PDA`. -/
def STORAGE_CONFIG_PDA : Pubkey := Pubkey.raw 1

/-- Modelled from the spec: the fixed constant `TOKEN_MINT`. -/
def TOKEN_MINT : Pubkey := Pubkey.raw 2

/-- Modelled from the spec: the fixed constant `EMISSIONS`. -/
def EMISSIONS : Pubkey := Pubkey.raw 3

/-- Modelled from the spec: the fixed constant `system_program::ID`. -/
def system_program_ID : Pubkey := Pubkey.raw 4

/-- Modelled from the spec: the fixed constant `spl_token::ID`
(imported in the source as `TokenProgramID`). -/
def TokenProgramID : Pubkey := Pubkey.raw 5

/-- Modelled from the spec: the fixed constant `rent::ID`. -/
def rent_ID : Pubkey := Pubkey.raw 6

/-- Modelled from the spec: the remote storage-account record, of which
the two operations read only the `owner_1` field ("a storage account's
owner key"). -/
structure StorageAccount where
  owner_1 : Pubkey
deriving DecidableEq

/-- Modelled from the spec: an opaque failure surfaced from the remote
node ("network error, transaction rejected"). -/
abbrev RpcError := Nat

/-- Blockhash returned by `get_latest_blockhash`. -/
abbrev Blockhash := Nat

/-- Transaction signature returned by the submission RPC; the code
turns it into the `txid` string via `to_string`. -/
abbrev Signature := Nat

/-- Commitment level for the submission RPC
(`solana_sdk::commitment_config::CommitmentLevel`); both operations use
`Confirmed`. -/
inductive CommitmentLevel where
  | Confirmed
  | Finalized
deriving DecidableEq

/-- Modelled from the spec: the library's error type.  Errors are
"either local validation failures (e.g., a size argument that does not
fit the expected numeric range) or opaque failures surfaced from the
remote node"; `InvalidStorage` is referenced directly by
`reduce_storage`, and remote errors are propagated unchanged. -/
inductive Error where
  | InvalidStorage
  | rpc : RpcError → Error
deriving DecidableEq

/-- Result alias used by both operations (`ShadowDriveResult<T>`). -/
abbrev ShadowDriveResult (A : Type) := Except Error A

/-- Response value: "a single transaction identifier string returned to
the caller after confirmation". -/
structure ShdwDriveResponse where
  txid : String
deriving DecidableEq

/-- Instruction data (`args.data()`): the binary encoding is defined by
the external on-chain program, so we keep the argument values
symbolically.  `ClaimStake` carries no arguments; `DecreaseStorage`
carries `remove_storage : Option<u64>`. -/
inductive InstructionData where
  | claimStake
  | decreaseStorage : Option Nat → InstructionData
deriving DecidableEq

/-- Instruction: program id, account metas in the fixed order produced
by `to_account_metas(None)`, and the instruction data. -/
structure Instruction where
  program_id : Pubkey
  accounts : List Pubkey
  data : InstructionData
deriving DecidableEq

/-- Transaction built by `Transaction::new_signed_with_payer`. -/
structure Transaction where
  instructions : List Instruction
  payer : Option Pubkey
  signers : List Pubkey
  recent_blockhash : Blockhash
deriving DecidableEq

/-- One remote-node interaction, as recorded in an operation's trace. -/
inductive RpcCall where
  | getStorageAccount : Pubkey → RpcCall
  | getLatestBlockhash : RpcCall
  | sendAndConfirm : Transaction → CommitmentLevel → RpcCall
deriving DecidableEq

/-- Modelled from the spec: the remote node as seen through the client's
RPC connection.  `get_storage_account` is the client helper that
fetches a read-only snapshot of on-chain account state "fetched fresh
per call"; the other two are the SDK RPC calls used by the source. -/
structure RpcEnv where
  get_storage_account : Pubkey → Except RpcError StorageAccount
  get_latest_blockhash : Except RpcError Blockhash
  send_and_confirm : Transaction → CommitmentLevel → Except RpcError Signature

/-- The client handle: "holding a signing credential and a remote-node
connection".  The wallet signer is represented by its public key. -/
structure Client where
  wallet : Pubkey
  rpc_client : RpcEnv

/-- The client struct is named `ShadowDriveClient` in
reduce_storage.rs and `Client` in claim_stake.rs; both are the same
handle. -/
abbrev ShadowDriveClient := Client

/-- Account layout of the `ClaimStake` instruction
(`shdw_drive_accounts::ClaimStake`), fields in source order. -/
structure ClaimStakeAccounts where
  storage_config : Pubkey
  storage_account : Pubkey
  unstake_info : Pubkey
  unstake_account : Pubkey
  owner : Pubkey
  owner_ata : Pubkey
  token_mint : Pubkey
  system_program : Pubkey
  token_program : Pubkey
deriving DecidableEq

/-- Account metas of `ClaimStake`, in the fixed declared order. -/
def ClaimStakeAccounts.to_account_metas (a : ClaimStakeAccounts) : List Pubkey :=
  [a.storage_config, a.storage_account, a.unstake_info, a.unstake_account,
   a.owner, a.owner_ata, a.token_mint, a.system_program, a.token_program]

/-- Account layout of the `DecreaseStorage` instruction
(`shdw_drive_accounts::DecreaseStorage`), fields in source order. -/
structure DecreaseStorageAccounts where
  storage_config : Pubkey
  storage_account : Pubkey
  unstake_info : Pubkey
  unstake_account : Pubkey
  owner : Pubkey
  owner_ata : Pubkey
  stake_account : Pubkey
  emissions_wallet : Pubkey
  token_mint : Pubkey
  system_program : Pubkey
  token_program : Pubkey
  rent : Pubkey
deriving DecidableEq

/-- Account metas of `DecreaseStorage`, in the fixed declared order. -/
def DecreaseStorageAccounts.to_account_metas (a : DecreaseStorageAccounts) : List Pubkey :=
  [a.storage_config, a.storage_account, a.unstake_info, a.unstake_account,
   a.owner, a.owner_ata, a.stake_account, a.emissions_wallet,
   a.token_mint, a.system_program, a.token_program, a.rent]

/-- A `byte_unit::Byte` size argument, represented by its byte count
(`get_bytes` returns an unsigned 128-bit count in the source; we carry
the count as a natural number). -/
structure Byte where
  bytes : Nat
deriving DecidableEq

/-- Byte count of a `Byte` value (`Byte::get_bytes`). -/
def Byte.get_bytes (b : Byte) : Nat := b.bytes

/-- Number of values of an unsigned 64-bit integer: `try_into::<u64>()`
on the byte count succeeds exactly when the count is below this. -/
def U64_MOD : Nat := 2 ^ 64

/-- Embedding of `Client::claim_stake` (src/src/client/claim_stake.rs,
lines 22-73), faithful to the source's order of evaluation.  Returns
the result, the ordered trace of remote calls, and the client handle
after the call. -/
def claim_stake (self : Client) (storage_account_key : Pubkey) :
    ShadowDriveResult ShdwDriveResponse × List RpcCall × Client :=
  let wallet_pubkey := self.wallet
  match self.rpc_client.get_storage_account storage_account_key with
  | .error e => (.error (.rpc e), [.getStorageAccount storage_account_key], self)
  | .ok selected_account =>
      let unstake_acct := (unstake_account storage_account_key).1
      let unstake_info_account := (unstake_info storage_account_key).1
      let owner_ata := get_associated_token_address wallet_pubkey TOKEN_MINT
      let accounts : ClaimStakeAccounts :=
        { storage_config := STORAGE_CONFIG_PDA,
          storage_account := storage_account_key,
          unstake_info := unstake_info_account,
          unstake_account := unstake_acct,
          owner := selected_account.owner_1,
          owner_ata := owner_ata,
          token_mint := TOKEN_MINT,
          system_program := system_program_ID,
          token_program := TokenProgramID }
      let instruction : Instruction :=
        { program_id := PROGRAM_ADDRESS,
          accounts := accounts.to_account_metas,
          data := InstructionData.claimStake }
      match self.rpc_client.get_latest_blockhash with
      | .error e =>
          (.error (.rpc e),
           [.getStorageAccount storage_account_key, .getLatestBlockhash], self)
      | .ok blockhash =>
          let txn : Transaction :=
            { instructions := [instruction],
              payer := some wallet_pubkey,
              signers := [wallet_pubkey],
              recent_blockhash := blockhash }
          match self.rpc_client.send_and_confirm txn CommitmentLevel.Confirmed with
          | .error e =>
              (.error (.rpc e),
               [.getStorageAccount storage_account_key, .getLatestBlockhash,
                .sendAndConfirm txn CommitmentLevel.Confirmed], self)
          | .ok txn_result =>
              (.ok { txid := toString txn_result },
               [.getStorageAccount storage_account_key, .getLatestBlockhash,
                .sendAndConfirm txn CommitmentLevel.Confirmed], self)

/-- Embedding of `ShadowDriveClient::reduce_storage`
(src/src/client/reduce_storage.rs, lines 57-121), faithful to the
source's order of evaluation: the size argument is converted to an
unsigned 64-bit byte count first (failing with `InvalidStorage` if it
does not fit), then the storage account is fetched, addresses derived,
the instruction built, and the transaction signed and submitted. -/
def reduce_storage (self : Client) (storage_account_key : Pubkey) (size : Byte) :
    ShadowDriveResult ShdwDriveResponse × List RpcCall × Client :=
  if size.get_bytes < U64_MOD then
    let size_as_bytes := size.get_bytes
    let wallet_pubkey := self.wallet
    match self.rpc_client.get_storage_account storage_account_key with
    | .error e => (.error (.rpc e), [.getStorageAccount storage_account_key], self)
    | .ok selected_storage_acct =>
        let unstake_acct := (unstake_account storage_account_key).1
        let unstake_info_acct := (unstake_info storage_account_key).1
        let owner_ata := get_associated_token_address wallet_pubkey TOKEN_MINT
        let stake_acct := (stake_account storage_account_key).1
        let emeissions_ata := get_associated_token_address EMISSIONS TOKEN_MINT
        let accounts : DecreaseStorageAccounts :=
          { storage_config := STORAGE_CONFIG_PDA,
            storage_account := storage_account_key,
            unstake_info := unstake_info_acct,
            unstake_account := unstake_acct,
            owner := selected_storage_acct.owner_1,
            owner_ata := owner_ata,
            stake_account := stake_acct,
            emissions_wallet := emeissions_ata,
            token_mint := TOKEN_MINT,
            system_program := system_program_ID,
            token_program := TokenProgramID,
            rent := rent_ID }
        let instruction : Instruction :=
          { program_id := PROGRAM_ADDRESS,
            accounts := accounts.to_account_metas,
            data := InstructionData.decreaseStorage (some size_as_bytes) }
        match self.rpc_client.get_latest_blockhash with
        | .error e =>
            (.error (.rpc e),
             [.getStorageAccount storage_account_key, .getLatestBlockhash], self)
        | .ok blockhash =>
            let txn : Transaction :=
              { instructions := [instruction],
                payer := some wallet_pubkey,
                signers := [wallet_pubkey],
                recent_blockhash := blockhash }
            match self.rpc_client.send_and_confirm txn CommitmentLevel.Confirmed with
            | .error e =>
                (.error (.rpc e),
                 [.getStorageAccount storage_account_key, .getLatestBlockhash,
                  .sendAndConfirm txn CommitmentLevel.Confirmed], self)
            | .ok txn_result =>
                (.ok { txid := toString txn_result },
                 [.getStorageAccount storage_account_key, .getLatestBlockhash,
                  .sendAndConfirm txn CommitmentLevel.Confirmed], self)
  else
    (.error Error.InvalidStorage, [], self)

/-- Canonical account struct built by `claim_stake` from the wallet key,
the storage account key and the fetched owner key. -/
def claim_stake_accounts (wallet_pubkey storage_account_key owner1 : Pubkey) :
    ClaimStakeAccounts :=
  { storage_config := STORAGE_CONFIG_PDA,
    storage_account := storage_account_key,
    unstake_info := (unstake_info storage_account_key).1,
    unstake_account := (unstake_account storage_account_key).1,
    owner := owner1,
    owner_ata := get_associated_token_address wallet_pubkey TOKEN_MINT,
    token_mint := TOKEN_MINT,
    system_program := system_program_ID,
    token_program := TokenProgramID }

/-- Canonical instruction built by `claim_stake`. -/
def claim_stake_instruction (wallet_pubkey storage_account_key owner1 : Pubkey) :
    Instruction :=
  { program_id := PROGRAM_ADDRESS,
    accounts := (claim_stake_accounts wallet_pubkey storage_account_key owner1).to_account_metas,
    data := InstructionData.claimStake }

/-- Canonical transaction built and submitted by `claim_stake`. -/
def claim_stake_txn (wallet_pubkey storage_account_key owner1 : Pubkey)
    (blockhash : Blockhash) : Transaction :=
  { instructions := [claim_stake_instruction wallet_pubkey storage_account_key owner1],
    payer := some wallet_pubkey,
    signers := [wallet_pubkey],
    recent_blockhash := blockhash }

/-- Canonical account struct built by `reduce_storage`. -/
def reduce_storage_accounts (wallet_pubkey storage_account_key owner1 : Pubkey) :
    DecreaseStorageAccounts :=
  { storage_config := STORAGE_CONFIG_PDA,
    storage_account := storage_account_key,
    unstake_info := (unstake_info storage_account_key).1,
    unstake_account := (unstake_account storage_account_key).1,
    owner := owner1,
    owner_ata := get_associated_token_address wallet_pubkey TOKEN_MINT,
    stake_account := (stake_account storage_account_key).1,
    emissions_wallet := get_associated_token_address EMISSIONS TOKEN_MINT,
    token_mint := TOKEN_MINT,
    system_program := system_program_ID,
    token_program := TokenProgramID,
    rent := rent_ID }

/-- Canonical instruction built by `reduce_storage` for a byte count
that fits an unsigned 64-bit integer. -/
def reduce_storage_instruction (wallet_pubkey storage_account_key owner1 : Pubkey)
    (size_as_bytes : Nat) : Instruction :=
  { program_id := PROGRAM_ADDRESS,
    accounts := (reduce_storage_accounts wallet_pubkey storage_account_key owner1).to_account_metas,
    data := InstructionData.decreaseStorage (some size_as_bytes) }

/-- Canonical transaction built and submitted by `reduce_storage`. -/
def reduce_storage_txn (wallet_pubkey storage_account_key owner1 : Pubkey)
    (size_as_bytes : Nat) (blockhash : Blockhash) : Transaction :=
  { instructions := [reduce_storage_instruction wallet_pubkey storage_account_key owner1 size_as_bytes],
    payer := some wallet_pubkey,
    signers := [wallet_pubkey],
    recent_blockhash := blockhash }

/-- The spec's five-step linear sequence for `claim_stake`, written in
the spec's order: (1) derive the deterministic addresses, (2) fetch the
storage account, (3) build the instruction with the fixed account
layout, (4) sign and submit one transaction, (5) map the RPC result
into the response value. -/
def claim_stake_steps (self : Client) (storage_account_key : Pubkey) :
    ShadowDriveResult ShdwDriveResponse × List RpcCall × Client :=
  let wallet_pubkey := self.wallet
  let unstake_acct := (unstake_account storage_account_key).1
  let unstake_info_account := (unstake_info storage_account_key).1
  let owner_ata := get_associated_token_address wallet_pubkey TOKEN_MINT
  match self.rpc_client.get_storage_account storage_account_key with
  | .error e => (.error (.rpc e), [.getStorageAccount storage_account_key], self)
  | .ok selected_account =>
      let accounts : ClaimStakeAccounts :=
        { storage_config := STORAGE_CONFIG_PDA,
          storage_account := storage_account_key,
          unstake_info := unstake_info_account,
          unstake_account := unstake_acct,
          owner := selected_account.owner_1,
          owner_ata := owner_ata,
          token_mint := TOKEN_MINT,
          system_program := system_program_ID,
          token_program := TokenProgramID }
      let instruction : Instruction :=
        { program_id := PROGRAM_ADDRESS,
          accounts := accounts.to_account_metas,
          data := InstructionData.claimStake }
      match self.rpc_client.get_latest_blockhash with
      | .error e =>
          (.error (.rpc e),
           [.getStorageAccount storage_account_key, .getLatestBlockhash], self)
      | .ok blockhash =>
          let txn : Transaction :=
            { instructions := [instruction],
              payer := some wallet_pubkey,
              signers := [wallet_pubkey],
              recent_blockhash := blockhash }
          match self.rpc_client.send_and_confirm txn CommitmentLevel.Confirmed with
          | .error e =>
              (.error (.rpc e),
               [.getStorageAccount storage_account_key, .getLatestBlockhash,
                .sendAndConfirm txn CommitmentLevel.Confirmed], self)
          | .ok txn_result =>
              (.ok { txid := toString txn_result },
               [.getStorageAccount storage_account_key, .getLatestBlockhash,
                .sendAndConfirm txn CommitmentLevel.Confirmed], self)

/-- The spec's five-step linear sequence for `reduce_storage` on a byte
count already known to fit an unsigned 64-bit integer, written in the
spec's order: derive (including the stake account), fetch, build,
sign and submit, map. -/
def reduce_storage_steps (self : Client) (storage_account_key : Pubkey) (size : Byte) :
    ShadowDriveResult ShdwDriveResponse × List RpcCall × Client :=
  let size_as_bytes := size.get_bytes
  let wallet_pubkey := self.wallet
  let unstake_acct := (unstake_account storage_account_key).1
  let unstake_info_acct := (unstake_info storage_account_key).1
  let owner_ata := get_associated_token_address wallet_pubkey TOKEN_MINT
  let stake_acct := (stake_account storage_account_key).1
  let emeissions_ata := get_associated_token_address EMISSIONS TOKEN_MINT
  match self.rpc_client.get_storage_account storage_account_key with
  | .error e => (.error (.rpc e), [.getStorageAccount storage_account_key], self)
  | .ok selected_storage_acct =>
      let accounts : DecreaseStorageAccounts :=
        { storage_config := STORAGE_CONFIG_PDA,
          storage_account := storage_account_key,
          unstake_info := unstake_info_acct,
          unstake_account := unstake_acct,
          owner := selected_storage_acct.owner_1,
          owner_ata := owner_ata,
          stake_account := stake_acct,
          emissions_wallet := emeissions_ata,
          token_mint := TOKEN_MINT,
          system_program := system_program_ID,
          token_program := TokenProgramID,
          rent := rent_ID }
      let instruction : Instruction :=
        { program_id := PROGRAM_ADDRESS,
          accounts := accounts.to_account_metas,
          data := InstructionData.decreaseStorage (some size_as_bytes) }
      match self.rpc_client.get_latest_blockhash with
      | .error e =>
          (.error (.rpc e),
           [.getStorageAccount storage_account_key, .getLatestBlockhash], self)
      | .ok blockhash =>
          let txn : Transaction :=
            { instructions := [instruction],
              payer := some wallet_pubkey,
              signers := [wallet_pubkey],
              recent_blockhash := blockhash }
          match self.rpc_client.send_and_confirm txn CommitmentLevel.Confirmed with
          | .error e =>
              (.error (.rpc e),
               [.getStorageAccount storage_account_key, .getLatestBlockhash,
                .sendAndConfirm txn CommitmentLevel.Confirmed], self)
          | .ok txn_result =>
              (.ok { txid := toString txn_result },
               [.getStorageAccount storage_account_key, .getLatestBlockhash,
                .sendAndConfirm txn CommitmentLevel.Confirmed], self)

/-- Test for the storage-account-fetch event, used to count fetches. -/
def RpcCall.isStorageFetch : RpcCall → Bool
  | .getStorageAccount _ => true
  | _ => false

/-- Test for the transaction-submission event, used to count
submissions. -/
def RpcCall.isSend : RpcCall → Bool
  | .sendAndConfirm _ _ => true
  | _ => false

/-- A concrete remote node on which every call succeeds: the storage
account owner is key 10, the blockhash 7, the returned signature 42. -/
def okEnv : RpcEnv :=
  { get_storage_account := fun _ => .ok { owner_1 := Pubkey.raw 10 },
    get_latest_blockhash := .ok 7,
    send_and_confirm := fun _ _ => .ok 42 }

/-- A concrete client over `okEnv`; its wallet key 20 differs from the
storage account owner key 10 served by `okEnv`. -/
def okClient : Client := { wallet := Pubkey.raw 20, rpc_client := okEnv }

/-- A concrete remote node on which fetching the storage account fails
with error 3. -/
def fetchFailEnv : RpcEnv :=
  { get_storage_account := fun _ => .error 3,
    get_latest_blockhash := .ok 7,
    send_and_confirm := fun _ _ => .ok 42 }

/-- A concrete client over `fetchFailEnv`. -/
def fetchFailClient : Client := { wallet := Pubkey.raw 20, rpc_client := fetchFailEnv }

/-- A concrete remote node on which fetching the latest blockhash fails
with error 4. -/
def bhFailEnv : RpcEnv :=
  { get_storage_account := fun _ => .ok { owner_1 := Pubkey.raw 10 },
    get_latest_blockhash := .error 4,
    send_and_confirm := fun _ _ => .ok 42 }

/-- A concrete client over `bhFailEnv`. -/
def bhFailClient : Client := { wallet := Pubkey.raw 20, rpc_client := bhFailEnv }

/-- A concrete remote node on which transaction submission fails with
error 5. -/
def sendFailEnv : RpcEnv :=
  { get_storage_account := fun _ => .ok { owner_1 := Pubkey.raw 10 },
    get_latest_blockhash := .ok 7,
    send_and_confirm := fun _ _ => .error 5 }

/-- A concrete client over `sendFailEnv`. -/
def sendFailClient : Client := { wallet := Pubkey.raw 20, rpc_client := sendFailEnv }

/-- A second concrete all-succeeding remote node, serving a different
storage-account owner (key 11), blockhash (8) and signature (43) than
`okEnv`. -/
def okEnv2 : RpcEnv :=
  { get_storage_account := fun _ => .ok { owner_1 := Pubkey.raw 11 },
    get_latest_blockhash := .ok 8,
    send_and_confirm := fun _ _ => .ok 43 }

/-- A concrete client over `okEnv2` with the same wallet as
`okClient`. -/
def okClient2 : Client := { wallet := Pubkey.raw 20, rpc_client := okEnv2 }

/-- The derived-address entries of a claim-stake transaction: the
unstake_info (position 2), unstake_account (position 3) and owner
associated-token (position 5) account metas of its single
instruction. -/
def claimDerivedEntries (t : Transaction) : List (Option Pubkey) :=
  match t.instructions with
  | [i] => [i.accounts[2]?, i.accounts[3]?, i.accounts[5]?]
  | _ => []

/-- The derived-address entries of a reduce-storage transaction: the
unstake_info (position 2), unstake_account (position 3), owner
associated-token (position 5), stake_account (position 6) and
emissions associated-token (position 7) account metas of its single
instruction. -/
def reduceDerivedEntries (t : Transaction) : List (Option Pubkey) :=
  match t.instructions with
  | [i] => [i.accounts[2]?, i.accounts[3]?, i.accounts[5]?,
            i.accounts[6]?, i.accounts[7]?]
  | _ => []

/-- Characterization of `claim_stake` in terms of the canonical
transaction: the function is the three-stage case split on the remote
calls, submitting `claim_stake_txn` at the `Confirmed` level. -/
theorem claim_stake_eq (self : Client) (storage_account_key : Pubkey) :
    claim_stake self storage_account_key =
      match self.rpc_client.get_storage_account storage_account_key with
      | .error e => (.error (.rpc e), [.getStorageAccount storage_account_key], self)
      | .ok acct =>
          match self.rpc_client.get_latest_blockhash with
          | .error e =>
              (.error (.rpc e),
               [.getStorageAccount storage_account_key, .getLatestBlockhash], self)
          | .ok bh =>
              match self.rpc_client.send_and_confirm
                  (claim_stake_txn self.wallet storage_account_key acct.owner_1 bh)
                  CommitmentLevel.Confirmed with
              | .error e =>
                  (.error (.rpc e),
                   [.getStorageAccount storage_account_key, .getLatestBlockhash,
                    .sendAndConfirm
                      (claim_stake_txn self.wallet storage_account_key acct.owner_1 bh)
                      CommitmentLevel.Confirmed], self)
              | .ok sig =>
                  (.ok { txid := toString sig },
                   [.getStorageAccount storage_account_key, .getLatestBlockhash,
                    .sendAndConfirm
                      (claim_stake_txn self.wallet storage_account_key acct.owner_1 bh)
                      CommitmentLevel.Confirmed], self) := rfl

/-- Characterization of `reduce_storage` in terms of the canonical
transaction: local size validation first, then the three-stage case
split on the remote calls, submitting `reduce_storage_txn` at the
`Confirmed` level. -/
theorem reduce_storage_eq (self : Client) (storage_account_key : Pubkey) (size : Byte) :
    reduce_storage self storage_account_key size =
      if size.get_bytes < U64_MOD then
        match self.rpc_client.get_storage_account storage_account_key with
        | .error e => (.error (.rpc e), [.getStorageAccount storage_account_key], self)
        | .ok acct =>
            match self.rpc_client.get_latest_blockhash with
            | .error e =>
                (.error (.rpc e),
                 [.getStorageAccount storage_account_key, .getLatestBlockhash], self)
            | .ok bh =>
                match self.rpc_client.send_and_confirm
                    (reduce_storage_txn self.wallet storage_account_key acct.owner_1
                      size.get_bytes bh)
                    CommitmentLevel.Confirmed with
                | .error e =>
                    (.error (.rpc e),
                     [.getStorageAccount storage_account_key, .getLatestBlockhash,
                      .sendAndConfirm
                        (reduce_storage_txn self.wallet storage_account_key acct.owner_1
                          size.get_bytes bh)
                        CommitmentLevel.Confirmed], self)
                | .ok sig =>
                    (.ok { txid := toString sig },
                     [.getStorageAccount storage_account_key, .getLatestBlockhash,
                      .sendAndConfirm
                        (reduce_storage_txn self.wallet storage_account_key acct.owner_1
                          size.get_bytes bh)
                        CommitmentLevel.Confirmed], self)
      else
        (.error Error.InvalidStorage, [], self) := rfl

/-- If a submission event appears in the trace of `claim_stake`, then
both preceding remote calls succeeded, the commitment level was
`Confirmed`, and the submitted transaction is the canonical one. -/
theorem claim_stake_send_mem {self : Client} {key : Pubkey} {txn : Transaction}
    {c : CommitmentLevel}
    (h : RpcCall.sendAndConfirm txn c ∈ (claim_stake self key).2.1) :
    ∃ acct bh,
      self.rpc_client.get_storage_account key = .ok acct ∧
      self.rpc_client.get_latest_blockhash = .ok bh ∧
      c = CommitmentLevel.Confirmed ∧
      txn = claim_stake_txn self.wallet key acct.owner_1 bh := by
  rw [claim_stake_eq] at h
  split at h
  next e heq => simp at h
  next acct heq =>
    split at h
    next e heq2 => simp at h
    next bh heq2 =>
      split at h
      next e heq3 =>
        simp at h
        exact ⟨acct, bh, heq, heq2, h.2, h.1⟩
      next sig heq3 =>
        simp at h
        exact ⟨acct, bh, heq, heq2, h.2, h.1⟩

/-- If a submission event appears in the trace of `reduce_storage`,
then the size fit an unsigned 64-bit integer, both preceding remote
calls succeeded, the commitment level was `Confirmed`, and the
submitted transaction is the canonical one. -/
theorem reduce_storage_send_mem {self : Client} {key : Pubkey} {size : Byte}
    {txn : Transaction} {c : CommitmentLevel}
    (h : RpcCall.sendAndConfirm txn c ∈ (reduce_storage self key size).2.1) :
    ∃ acct bh,
      size.get_bytes < U64_MOD ∧
      self.rpc_client.get_storage_account key = .ok acct ∧
      self.rpc_client.get_latest_blockhash = .ok bh ∧
      c = CommitmentLevel.Confirmed ∧
      txn = reduce_storage_txn self.wallet key acct.owner_1 size.get_bytes bh := by
  rw [reduce_storage_eq] at h
  split at h
  next hsz =>
    split at h
    next e heq => simp at h
    next acct heq =>
      split at h
      next e heq2 => simp at h
      next bh heq2 =>
        split at h
        next e heq3 =>
          simp at h
          exact ⟨acct, bh, hsz, heq, heq2, h.2, h.1⟩
        next sig heq3 =>
          simp at h
          exact ⟨acct, bh, hsz, heq, heq2, h.2, h.1⟩
  next hsz => simp at h

/-- Evaluation of `claim_stake` when the storage-account fetch fails:
the error is returned at once, the trace holds only the fetch. -/
theorem claim_stake_fetch_err_eq {self : Client} {key : Pubkey} {r : RpcError}
    (hf : self.rpc_client.get_storage_account key = .error r) :
    claim_stake self key = (.error (.rpc r), [.getStorageAccount key], self) := by
  simp only [claim_stake_eq, hf]

/-- Evaluation of `claim_stake` when the blockhash fetch fails. -/
theorem claim_stake_bh_err_eq {self : Client} {key : Pubkey} {acct : StorageAccount}
    {r : RpcError}
    (hf : self.rpc_client.get_storage_account key = .ok acct)
    (hb : self.rpc_client.get_latest_blockhash = .error r) :
    claim_stake self key =
      (.error (.rpc r), [.getStorageAccount key, .getLatestBlockhash], self) := by
  simp only [claim_stake_eq, hf, hb]

/-- Evaluation of `claim_stake` when the submission fails. -/
theorem claim_stake_send_err_eq {self : Client} {key : Pubkey} {acct : StorageAccount}
    {bh : Blockhash} {r : RpcError}
    (hf : self.rpc_client.get_storage_account key = .ok acct)
    (hb : self.rpc_client.get_latest_blockhash = .ok bh)
    (hs : self.rpc_client.send_and_confirm
        (claim_stake_txn self.wallet key acct.owner_1 bh) CommitmentLevel.Confirmed
      = .error r) :
    claim_stake self key =
      (.error (.rpc r),
       [.getStorageAccount key, .getLatestBlockhash,
        .sendAndConfirm (claim_stake_txn self.wallet key acct.owner_1 bh)
          CommitmentLevel.Confirmed], self) := by
  simp only [claim_stake_eq, hf, hb, hs]

/-- Evaluation of `claim_stake` when every remote call succeeds. -/
theorem claim_stake_ok_eq {self : Client} {key : Pubkey} {acct : StorageAccount}
    {bh : Blockhash} {sig : Signature}
    (hf : self.rpc_client.get_storage_account key = .ok acct)
    (hb : self.rpc_client.get_latest_blockhash = .ok bh)
    (hs : self.rpc_client.send_and_confirm
        (claim_stake_txn self.wallet key acct.owner_1 bh) CommitmentLevel.Confirmed
      = .ok sig) :
    claim_stake self key =
      (.ok { txid := toString sig },
       [.getStorageAccount key, .getLatestBlockhash,
        .sendAndConfirm (claim_stake_txn self.wallet key acct.owner_1 bh)
          CommitmentLevel.Confirmed], self) := by
  simp only [claim_stake_eq, hf, hb, hs]

/-- Evaluation of `reduce_storage` when the size fits and the
storage-account fetch fails. -/
theorem reduce_storage_fetch_err_eq {self : Client} {key : Pubkey} {size : Byte}
    {r : RpcError} (hsz : size.get_bytes < U64_MOD)
    (hf : self.rpc_client.get_storage_account key = .error r) :
    reduce_storage self key size = (.error (.rpc r), [.getStorageAccount key], self) := by
  rw [reduce_storage_eq, if_pos hsz]
  simp only [hf]

/-- Evaluation of `reduce_storage` when the size fits and the blockhash
fetch fails. -/
theorem reduce_storage_bh_err_eq {self : Client} {key : Pubkey} {size : Byte}
    {acct : StorageAccount} {r : RpcError} (hsz : size.get_bytes < U64_MOD)
    (hf : self.rpc_client.get_storage_account key = .ok acct)
    (hb : self.rpc_client.get_latest_blockhash = .error r) :
    reduce_storage self key size =
      (.error (.rpc r), [.getStorageAccount key, .getLatestBlockhash], self) := by
  rw [reduce_storage_eq, if_pos hsz]
  simp only [hf, hb]

/-- Evaluation of `reduce_storage` when the size fits and the
submission fails. -/
theorem reduce_storage_send_err_eq {self : Client} {key : Pubkey} {size : Byte}
    {acct : StorageAccount} {bh : Blockhash} {r : RpcError}
    (hsz : size.get_bytes < U64_MOD)
    (hf : self.rpc_client.get_storage_account key = .ok acct)
    (hb : self.rpc_client.get_latest_blockhash = .ok bh)
    (hs : self.rpc_client.send_and_confirm
        (reduce_storage_txn self.wallet key acct.owner_1 size.get_bytes bh)
        CommitmentLevel.Confirmed = .error r) :
    reduce_storage self key size =
      (.error (.rpc r),
       [.getStorageAccount key, .getLatestBlockhash,
        .sendAndConfirm
          (reduce_storage_txn self.wallet key acct.owner_1 size.get_bytes bh)
          CommitmentLevel.Confirmed], self) := by
  rw [reduce_storage_eq, if_pos hsz]
  simp only [hf, hb, hs]

/-- Evaluation of `reduce_storage` when the size fits and every remote
call succeeds. -/
theorem reduce_storage_ok_eq {self : Client} {key : Pubkey} {size : Byte}
    {acct : StorageAccount} {bh : Blockhash} {sig : Signature}
    (hsz : size.get_bytes < U64_MOD)
    (hf : self.rpc_client.get_storage_account key = .ok acct)
    (hb : self.rpc_client.get_latest_blockhash = .ok bh)
    (hs : self.rpc_client.send_and_confirm
        (reduce_storage_txn self.wallet key acct.owner_1 size.get_bytes bh)
        CommitmentLevel.Confirmed = .ok sig) :
    reduce_storage self key size =
      (.ok { txid := toString sig },
       [.getStorageAccount key, .getLatestBlockhash,
        .sendAndConfirm
          (reduce_storage_txn self.wallet key acct.owner_1 size.get_bytes bh)
          CommitmentLevel.Confirmed], self) := by
  rw [reduce_storage_eq, if_pos hsz]
  simp only [hf, hb, hs]

/-- The client handle component returned by `claim_stake` is the input
client, in every branch. -/
theorem claim_stake_client_eq (self : Client) (key : Pubkey) :
    (claim_stake self key).2.2 = self := by
  rw [claim_stake_eq]
  split
  · rfl
  · split
    · rfl
    · split <;> rfl

/-- The client handle component returned by `reduce_storage` is the
input client, in every branch. -/
theorem reduce_storage_client_eq (self : Client) (key : Pubkey) (size : Byte) :
    (reduce_storage self key size).2.2 = self := by
  rw [reduce_storage_eq]
  split
  · split
    · rfl
    · split
      · rfl
      · split <;> rfl
  · rfl

/-- Every invocation of `claim_stake` records exactly one
storage-account fetch in its trace. -/
theorem claim_stake_fetch_count (self : Client) (key : Pubkey) :
    (claim_stake self key).2.1.countP RpcCall.isStorageFetch = 1 := by
  rw [claim_stake_eq]
  split
  · rfl
  · split
    · rfl
    · split <;> rfl

/-- Every invocation of `reduce_storage` whose size fits an unsigned
64-bit integer records exactly one storage-account fetch in its
trace. -/
theorem reduce_storage_fetch_count (self : Client) (key : Pubkey) (size : Byte)
    (hsz : size.get_bytes < U64_MOD) :
    (reduce_storage self key size).2.1.countP RpcCall.isStorageFetch = 1 := by
  rw [reduce_storage_eq, if_pos hsz]
  split
  · rfl
  · split
    · rfl
    · split <;> rfl

/-- C1: the claim as stated fails on the code.  The claimed linear
sequence makes the storage-account fetch step (2) of every invocation
of `reduce_storage`, but the invocation with a size of 2 ^ 64 bytes
returns before any remote call: its trace is empty and contains no
storage-account fetch. -/
theorem C1_counterexample :
    (reduce_storage okClient (Pubkey.raw 9) (Byte.mk (2 ^ 64))).2.1 = [] ∧
    RpcCall.getStorageAccount (Pubkey.raw 9) ∉
      (reduce_storage okClient (Pubkey.raw 9) (Byte.mk (2 ^ 64))).2.1 := by
  constructor
  · rfl
  · intro h
    have h2 : RpcCall.getStorageAccount (Pubkey.raw 9) ∈ ([] : List RpcCall) := h
    simp at h2

/-- C1 (amended): `claim_stake` performs its work as the spec's linear
sequence derive-fetch-build-submit-map, and so does `reduce_storage`
whenever its size argument's byte count fits an unsigned 64-bit
integer; when the byte count does not fit, `reduce_storage` returns
`InvalidStorage` before any of the five steps, with an empty trace. -/
theorem C1_linear_sequence (self : Client) (key : Pubkey) (size : Byte) :
    claim_stake self key = claim_stake_steps self key ∧
    (size.get_bytes < U64_MOD →
      reduce_storage self key size = reduce_storage_steps self key size) ∧
    (U64_MOD ≤ size.get_bytes →
      reduce_storage self key size = (.error Error.InvalidStorage, [], self)) := by
  refine ⟨rfl, ?_, ?_⟩
  · intro h
    unfold reduce_storage reduce_storage_steps
    rw [if_pos h]
  · intro h
    unfold reduce_storage
    rw [if_neg (Nat.not_lt.mpr h)]

/-- C1 witness: the amended claim instantiated at a concrete client,
storage key and a 5-byte size. -/
theorem C1_linear_sequence_witness :
    claim_stake okClient (Pubkey.raw 9) = claim_stake_steps okClient (Pubkey.raw 9) ∧
    reduce_storage okClient (Pubkey.raw 9) (Byte.mk 5) =
      reduce_storage_steps okClient (Pubkey.raw 9) (Byte.mk 5) :=
  ⟨(C1_linear_sequence okClient (Pubkey.raw 9) (Byte.mk 5)).1,
   (C1_linear_sequence okClient (Pubkey.raw 9) (Byte.mk 5)).2.1 (by decide)⟩

/-- C2: every error of `claim_stake` is a remote error propagated
unchanged from one of the three remote calls; every error of
`reduce_storage` is either the local `InvalidStorage` validation
failure or such a remote error; and `reduce_storage` returns
`InvalidStorage` exactly when its size argument's byte count does not
fit an unsigned 64-bit integer. -/
theorem C2_error_origins (self : Client) (key : Pubkey) (size : Byte) :
    (∀ e : Error, (claim_stake self key).1 = .error e →
      ∃ r : RpcError, e = .rpc r ∧
        (self.rpc_client.get_storage_account key = .error r ∨
         self.rpc_client.get_latest_blockhash = .error r ∨
         ∃ txn : Transaction,
           self.rpc_client.send_and_confirm txn CommitmentLevel.Confirmed = .error r)) ∧
    (∀ e : Error, (reduce_storage self key size).1 = .error e →
      (e = Error.InvalidStorage ∧ U64_MOD ≤ size.get_bytes) ∨
      ∃ r : RpcError, e = .rpc r ∧
        (self.rpc_client.get_storage_account key = .error r ∨
         self.rpc_client.get_latest_blockhash = .error r ∨
         ∃ txn : Transaction,
           self.rpc_client.send_and_confirm txn CommitmentLevel.Confirmed = .error r)) ∧
    ((reduce_storage self key size).1 = .error Error.InvalidStorage ↔
      U64_MOD ≤ size.get_bytes) := by
  refine ⟨?_, ?_, ?_, ?_⟩
  · intro e h
    rw [claim_stake_eq] at h
    split at h
    next r heq =>
      simp at h
      exact ⟨r, h.symm, Or.inl heq⟩
    next acct heq =>
      split at h
      next r heq2 =>
        simp at h
        exact ⟨r, h.symm, Or.inr (Or.inl heq2)⟩
      next bh heq2 =>
        split at h
        next r heq3 =>
          simp at h
          exact ⟨r, h.symm,
            Or.inr (Or.inr ⟨claim_stake_txn self.wallet key acct.owner_1 bh, heq3⟩)⟩
        next sig heq3 => simp at h
  · intro e h
    rw [reduce_storage_eq] at h
    split at h
    next hsz =>
      refine Or.inr ?_
      split at h
      next r heq =>
        simp at h
        exact ⟨r, h.symm, Or.inl heq⟩
      next acct heq =>
        split at h
        next r heq2 =>
          simp at h
          exact ⟨r, h.symm, Or.inr (Or.inl heq2)⟩
        next bh heq2 =>
          split at h
          next r heq3 =>
            simp at h
            exact ⟨r, h.symm,
              Or.inr (Or.inr
                ⟨reduce_storage_txn self.wallet key acct.owner_1 size.get_bytes bh,
                 heq3⟩)⟩
          next sig heq3 => simp at h
    next hsz =>
      simp at h
      exact Or.inl ⟨h.symm, Nat.not_lt.mp hsz⟩
  · intro h
    rw [reduce_storage_eq] at h
    split at h
    next hsz =>
      exfalso
      split at h
      next r heq => simp at h
      next acct heq =>
        split at h
        next r heq2 => simp at h
        next bh heq2 =>
          split at h
          next r heq3 => simp at h
          next sig heq3 => simp at h
    next hsz => exact Nat.not_lt.mp hsz
  · intro h
    rw [reduce_storage_eq, if_neg (Nat.not_lt.mpr h)]

/-- C2 witness: with a remote node whose blockhash call fails with
error 4, `claim_stake` surfaces exactly that remote error. -/
theorem C2_error_origins_witness :
    ∃ r : RpcError, Error.rpc 4 = Error.rpc r ∧
      (bhFailClient.rpc_client.get_storage_account (Pubkey.raw 9) = .error r ∨
       bhFailClient.rpc_client.get_latest_blockhash = .error r ∨
       ∃ txn : Transaction,
         bhFailClient.rpc_client.send_and_confirm txn CommitmentLevel.Confirmed
           = .error r) :=
  (C2_error_origins bhFailClient (Pubkey.raw 9) (Byte.mk 5)).1 (Error.rpc 4) rfl

/-- C3: whenever either operation succeeds, the returned value is the
string form of the signature returned by the submission RPC, the
submission was made at the `Confirmed` commitment level, and the trace
ends with that submission after the two fetches. -/
theorem C3_success_confirmed_txid (self : Client) (key : Pubkey) (size : Byte) :
    (∀ resp, (claim_stake self key).1 = .ok resp →
      ∃ txn sig,
        self.rpc_client.send_and_confirm txn CommitmentLevel.Confirmed = .ok sig ∧
        resp = { txid := toString sig } ∧
        (claim_stake self key).2.1 =
          [.getStorageAccount key, .getLatestBlockhash,
           .sendAndConfirm txn CommitmentLevel.Confirmed]) ∧
    (∀ resp, (reduce_storage self key size).1 = .ok resp →
      ∃ txn sig,
        self.rpc_client.send_and_confirm txn CommitmentLevel.Confirmed = .ok sig ∧
        resp = { txid := toString sig } ∧
        (reduce_storage self key size).2.1 =
          [.getStorageAccount key, .getLatestBlockhash,
           .sendAndConfirm txn CommitmentLevel.Confirmed]) := by
  constructor
  · intro resp h
    rw [claim_stake_eq] at h
    split at h
    next r heq => simp at h
    next acct heq =>
      split at h
      next r heq2 => simp at h
      next bh heq2 =>
        split at h
        next r heq3 => simp at h
        next sig heq3 =>
          have h2 : Except.ok ({ txid := toString sig } : ShdwDriveResponse)
              = Except.ok resp := h
          injection h2 with h3
          refine ⟨claim_stake_txn self.wallet key acct.owner_1 bh, sig, heq3,
            h3.symm, ?_⟩
          rw [claim_stake_ok_eq heq heq2 heq3]
  · intro resp h
    rw [reduce_storage_eq] at h
    split at h
    next hsz =>
      split at h
      next r heq => simp at h
      next acct heq =>
        split at h
        next r heq2 => simp at h
        next bh heq2 =>
          split at h
          next r heq3 => simp at h
          next sig heq3 =>
            have h2 : Except.ok ({ txid := toString sig } : ShdwDriveResponse)
                = Except.ok resp := h
            injection h2 with h3
            refine ⟨reduce_storage_txn self.wallet key acct.owner_1 size.get_bytes bh,
              sig, heq3, h3.symm, ?_⟩
            rw [reduce_storage_ok_eq hsz heq heq2 heq3]
    next hsz => simp at h

/-- C3 witness: with the all-succeeding remote node, `claim_stake`
returns the string form of signature 42 and its trace ends with the
confirmed submission. -/
theorem C3_success_confirmed_txid_witness :
    ∃ txn sig,
      okClient.rpc_client.send_and_confirm txn CommitmentLevel.Confirmed = .ok sig ∧
      ({ txid := toString 42 } : ShdwDriveResponse) = { txid := toString sig } ∧
      (claim_stake okClient (Pubkey.raw 9)).2.1 =
        [.getStorageAccount (Pubkey.raw 9), .getLatestBlockhash,
         .sendAndConfirm txn CommitmentLevel.Confirmed] :=
  (C3_success_confirmed_txid okClient (Pubkey.raw 9) (Byte.mk 5)).1
    { txid := toString 42 } rfl

/-- C4: the derived addresses are deterministic pure functions of the
storage account key, the wallet key and fixed constants: any two
invocations (of either operation, against any remote nodes, with any
sizes) that reach submission with the same storage account key and the
same wallet submit transactions whose derived account entries are
identical, and equal to the canonical derivations from the key and
wallet alone. -/
theorem C4_derived_addresses_deterministic
    (self1 self2 : Client) (key w : Pubkey)
    (txn1 txn2 txn3 txn4 : Transaction) (c1 c2 c3 c4 : CommitmentLevel)
    (size1 size2 : Byte)
    (hw1 : self1.wallet = w) (hw2 : self2.wallet = w)
    (h1 : RpcCall.sendAndConfirm txn1 c1 ∈ (claim_stake self1 key).2.1)
    (h2 : RpcCall.sendAndConfirm txn2 c2 ∈ (claim_stake self2 key).2.1)
    (h3 : RpcCall.sendAndConfirm txn3 c3 ∈ (reduce_storage self1 key size1).2.1)
    (h4 : RpcCall.sendAndConfirm txn4 c4 ∈ (reduce_storage self2 key size2).2.1) :
    claimDerivedEntries txn1 = claimDerivedEntries txn2 ∧
    claimDerivedEntries txn1 =
      [some (unstake_info key).1, some (unstake_account key).1,
       some (get_associated_token_address w TOKEN_MINT)] ∧
    reduceDerivedEntries txn3 = reduceDerivedEntries txn4 ∧
    reduceDerivedEntries txn3 =
      [some (unstake_info key).1, some (unstake_account key).1,
       some (get_associated_token_address w TOKEN_MINT),
       some (stake_account key).1,
       some (get_associated_token_address EMISSIONS TOKEN_MINT)] := by
  obtain ⟨a1, b1, -, -, -, ht1⟩ := claim_stake_send_mem h1
  obtain ⟨a2, b2, -, -, -, ht2⟩ := claim_stake_send_mem h2
  obtain ⟨a3, b3, -, -, -, -, ht3⟩ := reduce_storage_send_mem h3
  obtain ⟨a4, b4, -, -, -, -, ht4⟩ := reduce_storage_send_mem h4
  subst ht1
  subst ht2
  subst ht3
  subst ht4
  subst hw1
  rw [hw2]
  exact ⟨rfl, rfl, rfl, rfl⟩

/-- C4 witness: two clients with the same wallet over different remote
nodes (different owners, blockhashes and signatures) submit
transactions with identical derived account entries. -/
theorem C4_derived_addresses_deterministic_witness :
    claimDerivedEntries
        (claim_stake_txn (Pubkey.raw 20) (Pubkey.raw 9) (Pubkey.raw 10) 7) =
      claimDerivedEntries
        (claim_stake_txn (Pubkey.raw 20) (Pubkey.raw 9) (Pubkey.raw 11) 8) ∧
    claimDerivedEntries
        (claim_stake_txn (Pubkey.raw 20) (Pubkey.raw 9) (Pubkey.raw 10) 7) =
      [some (unstake_info (Pubkey.raw 9)).1, some (unstake_account (Pubkey.raw 9)).1,
       some (get_associated_token_address (Pubkey.raw 20) TOKEN_MINT)] ∧
    reduceDerivedEntries
        (reduce_storage_txn (Pubkey.raw 20) (Pubkey.raw 9) (Pubkey.raw 10) 5 7) =
      reduceDerivedEntries
        (reduce_storage_txn (Pubkey.raw 20) (Pubkey.raw 9) (Pubkey.raw 11) 6 8) ∧
    reduceDerivedEntries
        (reduce_storage_txn (Pubkey.raw 20) (Pubkey.raw 9) (Pubkey.raw 10) 5 7) =
      [some (unstake_info (Pubkey.raw 9)).1, some (unstake_account (Pubkey.raw 9)).1,
       some (get_associated_token_address (Pubkey.raw 20) TOKEN_MINT),
       some (stake_account (Pubkey.raw 9)).1,
       some (get_associated_token_address EMISSIONS TOKEN_MINT)] :=
  C4_derived_addresses_deterministic okClient okClient2 (Pubkey.raw 9) (Pubkey.raw 20)
    (claim_stake_txn (Pubkey.raw 20) (Pubkey.raw 9) (Pubkey.raw 10) 7)
    (claim_stake_txn (Pubkey.raw 20) (Pubkey.raw 9) (Pubkey.raw 11) 8)
    (reduce_storage_txn (Pubkey.raw 20) (Pubkey.raw 9) (Pubkey.raw 10) 5 7)
    (reduce_storage_txn (Pubkey.raw 20) (Pubkey.raw 9) (Pubkey.raw 11) 6 8)
    CommitmentLevel.Confirmed CommitmentLevel.Confirmed
    CommitmentLevel.Confirmed CommitmentLevel.Confirmed
    (Byte.mk 5) (Byte.mk 6) rfl rfl
    (by decide) (by decide) (by decide) (by decide)

/-- C5: neither operation mutates the client handle: the wallet and
the RPC connection held by the client are the same after the call as
before it, on every path, success or failure. -/
theorem C5_client_not_mutated (self : Client) (key : Pubkey) (size : Byte) :
    (claim_stake self key).2.2 = self ∧
    (reduce_storage self key size).2.2 = self ∧
    ((claim_stake self key).2.2).wallet = self.wallet ∧
    ((claim_stake self key).2.2).rpc_client = self.rpc_client ∧
    ((reduce_storage self key size).2.2).wallet = self.wallet ∧
    ((reduce_storage self key size).2.2).rpc_client = self.rpc_client := by
  refine ⟨claim_stake_client_eq self key, reduce_storage_client_eq self key size,
    ?_, ?_, ?_, ?_⟩
  · rw [claim_stake_client_eq self key]
  · rw [claim_stake_client_eq self key]
  · rw [reduce_storage_client_eq self key size]
  · rw [reduce_storage_client_eq self key size]

/-- C6: every invocation of `claim_stake`, and every invocation of
`reduce_storage` that passes local size validation, fetches the
storage account exactly once; and no fetched state is reused across
invocations: a second invocation on the client handle left by the
first fetches again, two fetches for the pair. -/
theorem C6_fetch_exactly_once (self : Client) (key : Pubkey) (size : Byte) :
    (claim_stake self key).2.1.countP RpcCall.isStorageFetch = 1 ∧
    (size.get_bytes < U64_MOD →
      (reduce_storage self key size).2.1.countP RpcCall.isStorageFetch = 1) ∧
    ((claim_stake self key).2.1 ++
      (claim_stake ((claim_stake self key).2.2) key).2.1).countP
        RpcCall.isStorageFetch = 2 := by
  refine ⟨claim_stake_fetch_count self key,
    fun hsz => reduce_storage_fetch_count self key size hsz, ?_⟩
  rw [List.countP_append, claim_stake_client_eq self key,
    claim_stake_fetch_count self key]

/-- C6 witness: the counts instantiated at a concrete client, key and
5-byte size. -/
theorem C6_fetch_exactly_once_witness :
    (claim_stake okClient (Pubkey.raw 9)).2.1.countP RpcCall.isStorageFetch = 1 ∧
    (reduce_storage okClient (Pubkey.raw 9) (Byte.mk 5)).2.1.countP
      RpcCall.isStorageFetch = 1 :=
  ⟨(C6_fetch_exactly_once okClient (Pubkey.raw 9) (Byte.mk 5)).1,
   (C6_fetch_exactly_once okClient (Pubkey.raw 9) (Byte.mk 5)).2.1 (by decide)⟩

/-- C7: no step is retried: the submission RPC occurs at most once per
invocation, and when a remote call fails the operation returns that
error immediately, performing no further remote call (the trace stops
at the failed call). -/
theorem C7_no_retry (self : Client) (key : Pubkey) (size : Byte) :
    ((claim_stake self key).2.1.countP RpcCall.isSend ≤ 1) ∧
    ((reduce_storage self key size).2.1.countP RpcCall.isSend ≤ 1) ∧
    (∀ r, self.rpc_client.get_storage_account key = .error r →
      claim_stake self key = (.error (.rpc r), [.getStorageAccount key], self) ∧
      (size.get_bytes < U64_MOD →
        reduce_storage self key size =
          (.error (.rpc r), [.getStorageAccount key], self))) ∧
    (∀ acct r, self.rpc_client.get_storage_account key = .ok acct →
      self.rpc_client.get_latest_blockhash = .error r →
      claim_stake self key =
        (.error (.rpc r), [.getStorageAccount key, .getLatestBlockhash], self) ∧
      (size.get_bytes < U64_MOD →
        reduce_storage self key size =
          (.error (.rpc r), [.getStorageAccount key, .getLatestBlockhash], self))) ∧
    (∀ acct bh, self.rpc_client.get_storage_account key = .ok acct →
      self.rpc_client.get_latest_blockhash = .ok bh →
      (∀ r, self.rpc_client.send_and_confirm
          (claim_stake_txn self.wallet key acct.owner_1 bh)
          CommitmentLevel.Confirmed = .error r →
        (claim_stake self key).1 = .error (.rpc r)) ∧
      (∀ r, size.get_bytes < U64_MOD →
        self.rpc_client.send_and_confirm
          (reduce_storage_txn self.wallet key acct.owner_1 size.get_bytes bh)
          CommitmentLevel.Confirmed = .error r →
        (reduce_storage self key size).1 = .error (.rpc r))) := by
  refine ⟨?_, ?_, ?_, ?_, ?_⟩
  · rw [claim_stake_eq]
    split
    · exact Nat.zero_le 1
    · split
      · exact Nat.zero_le 1
      · split
        · exact Nat.le_refl 1
        · exact Nat.le_refl 1
  · rw [reduce_storage_eq]
    split
    · split
      · exact Nat.zero_le 1
      · split
        · exact Nat.zero_le 1
        · split
          · exact Nat.le_refl 1
          · exact Nat.le_refl 1
    · exact Nat.zero_le 1
  · intro r hf
    exact ⟨claim_stake_fetch_err_eq hf,
      fun hsz => reduce_storage_fetch_err_eq hsz hf⟩
  · intro acct r hf hb
    exact ⟨claim_stake_bh_err_eq hf hb,
      fun hsz => reduce_storage_bh_err_eq hsz hf hb⟩
  · intro acct bh hf hb
    constructor
    · intro r hs
      rw [claim_stake_send_err_eq hf hb hs]
    · intro r hsz hs
      rw [reduce_storage_send_err_eq hsz hf hb hs]

/-- C7 witness: with a remote node whose storage-account fetch fails
with error 3, both operations return that error immediately with a
single-fetch trace. -/
theorem C7_no_retry_witness :
    claim_stake fetchFailClient (Pubkey.raw 9) =
      (.error (.rpc 3), [.getStorageAccount (Pubkey.raw 9)], fetchFailClient) ∧
    reduce_storage fetchFailClient (Pubkey.raw 9) (Byte.mk 5) =
      (.error (.rpc 3), [.getStorageAccount (Pubkey.raw 9)], fetchFailClient) :=
  ⟨((C7_no_retry fetchFailClient (Pubkey.raw 9) (Byte.mk 5)).2.2.1 3 rfl).1,
   ((C7_no_retry fetchFailClient (Pubkey.raw 9) (Byte.mk 5)).2.2.1 3 rfl).2
     (by decide)⟩

/-- C8: when the size argument's byte count does not fit an unsigned
64-bit integer, `reduce_storage` returns `InvalidStorage` before any
remote interaction: its trace is empty, so no storage-account fetch,
no blockhash fetch and no submission occurs. -/
theorem C8_invalid_storage_before_remote (self : Client) (key : Pubkey) (size : Byte)
    (h : U64_MOD ≤ size.get_bytes) :
    reduce_storage self key size = (.error Error.InvalidStorage, [], self) := by
  rw [reduce_storage_eq, if_neg (Nat.not_lt.mpr h)]

/-- C8 witness: at a size of 2 ^ 64 bytes the validation fails and the
invocation performs no remote call. -/
theorem C8_invalid_storage_before_remote_witness :
    U64_MOD ≤ (Byte.mk (2 ^ 64)).get_bytes ∧
    reduce_storage okClient (Pubkey.raw 9) (Byte.mk (2 ^ 64)) =
      (.error Error.InvalidStorage, [], okClient) :=
  ⟨by decide,
   C8_invalid_storage_before_remote okClient (Pubkey.raw 9) (Byte.mk (2 ^ 64))
     (by decide)⟩

/-- C9: every transaction submitted by `reduce_storage` carries the
instruction data `DecreaseStorage { remove_storage: Some(size) }` —
never `None` — and a size of zero bytes passes local validation: no
invocation at size zero returns `InvalidStorage`. -/
theorem C9_size_encoded_as_some (self : Client) (key : Pubkey) (size : Byte)
    (txn : Transaction) (c : CommitmentLevel) :
    (RpcCall.sendAndConfirm txn c ∈ (reduce_storage self key size).2.1 →
      ∃ i, txn.instructions = [i] ∧
        i.data = InstructionData.decreaseStorage (some size.get_bytes)) ∧
    (reduce_storage self key (Byte.mk 0)).1 ≠ .error Error.InvalidStorage := by
  constructor
  · intro h
    obtain ⟨acct, bh, -, -, -, -, ht⟩ := reduce_storage_send_mem h
    subst ht
    exact ⟨reduce_storage_instruction self.wallet key acct.owner_1 size.get_bytes,
      rfl, rfl⟩
  · intro h
    rw [reduce_storage_eq] at h
    split at h
    next hsz =>
      split at h
      next r heq => simp at h
      next acct heq =>
        split at h
        next r heq2 => simp at h
        next bh heq2 =>
          split at h
          next r heq3 => simp at h
          next sig heq3 => simp at h
    next hsz => exact hsz (by decide)

/-- C9 witness: the concrete 5-byte invocation submits instruction
data carrying `Some 5`. -/
theorem C9_size_encoded_as_some_witness :
    ∃ i, (reduce_storage_txn (Pubkey.raw 20) (Pubkey.raw 9) (Pubkey.raw 10) 5 7).instructions
        = [i] ∧
      i.data = InstructionData.decreaseStorage (some 5) :=
  (C9_size_encoded_as_some okClient (Pubkey.raw 9) (Byte.mk 5)
    (reduce_storage_txn (Pubkey.raw 20) (Pubkey.raw 9) (Pubkey.raw 10) 5 7)
    CommitmentLevel.Confirmed).1 (by decide)

/-- C10: in both operations the submitted instruction's owner account
meta (position 4) is the fetched storage account's `owner_1`, while
the owner associated-token meta (position 5) and the fee payer are
derived from the client's own wallet key; no hypothesis relating the
two is needed, so the instruction mixes the remote owner with the
local wallet's token account whenever they differ. -/
theorem C10_owner_mixed_with_wallet (self : Client) (key : Pubkey) (size : Byte)
    (acct : StorageAccount) (txn1 txn2 : Transaction) (c1 c2 : CommitmentLevel)
    (hf : self.rpc_client.get_storage_account key = .ok acct)
    (h1 : RpcCall.sendAndConfirm txn1 c1 ∈ (claim_stake self key).2.1)
    (h2 : RpcCall.sendAndConfirm txn2 c2 ∈ (reduce_storage self key size).2.1) :
    (∃ i, txn1.instructions = [i] ∧
      i.accounts[4]? = some acct.owner_1 ∧
      i.accounts[5]? = some (get_associated_token_address self.wallet TOKEN_MINT)) ∧
    txn1.payer = some self.wallet ∧
    (∃ i, txn2.instructions = [i] ∧
      i.accounts[4]? = some acct.owner_1 ∧
      i.accounts[5]? = some (get_associated_token_address self.wallet TOKEN_MINT)) ∧
    txn2.payer = some self.wallet := by
  obtain ⟨a1, b1, hf1, -, -, ht1⟩ := claim_stake_send_mem h1
  obtain ⟨a2, b2, -, hf2, -, -, ht2⟩ := reduce_storage_send_mem h2
  rw [hf] at hf1 hf2
  injection hf1 with e1
  injection hf2 with e2
  subst e1
  subst e2
  subst ht1
  subst ht2
  exact ⟨⟨claim_stake_instruction self.wallet key acct.owner_1, rfl, rfl, rfl⟩, rfl,
    ⟨reduce_storage_instruction self.wallet key acct.owner_1 size.get_bytes,
      rfl, rfl, rfl⟩, rfl⟩

/-- C10 witness: over `okEnv` the fetched owner (key 10) differs from
the wallet (key 20), and the submitted instructions still carry the
remote owner at position 4 next to the wallet's token account at
position 5, with the wallet as fee payer. -/
theorem C10_owner_mixed_with_wallet_witness :
    Pubkey.raw 10 ≠ Pubkey.raw 20 ∧
    ((∃ i, (claim_stake_txn (Pubkey.raw 20) (Pubkey.raw 9) (Pubkey.raw 10) 7).instructions
          = [i] ∧
        i.accounts[4]? = some (Pubkey.raw 10) ∧
        i.accounts[5]? = some (get_associated_token_address (Pubkey.raw 20) TOKEN_MINT)) ∧
      (claim_stake_txn (Pubkey.raw 20) (Pubkey.raw 9) (Pubkey.raw 10) 7).payer
        = some (Pubkey.raw 20) ∧
      (∃ i, (reduce_storage_txn (Pubkey.raw 20) (Pubkey.raw 9) (Pubkey.raw 10) 5 7).instructions
          = [i] ∧
        i.accounts[4]? = some (Pubkey.raw 10) ∧
        i.accounts[5]? = some (get_associated_token_address (Pubkey.raw 20) TOKEN_MINT)) ∧
      (reduce_storage_txn (Pubkey.raw 20) (Pubkey.raw 9) (Pubkey.raw 10) 5 7).payer
        = some (Pubkey.raw 20)) :=
  ⟨by decide,
   C10_owner_mixed_with_wallet okClient (Pubkey.raw 9) (Byte.mk 5)
     { owner_1 := Pubkey.raw 10 }
     (claim_stake_txn (Pubkey.raw 20) (Pubkey.raw 9) (Pubkey.raw 10) 7)
     (reduce_storage_txn (Pubkey.raw 20) (Pubkey.raw 9) (Pubkey.raw 10) 5 7)
     CommitmentLevel.Confirmed CommitmentLevel.Confirmed rfl
     (by decide) (by decide)⟩

end ShadowDrive
